import Mathlib

/-!
Verification of the segNet Python binding layer
(`python/bindings/PySegNet.cpp` of jetson-inference).

The binding is glue code: it marshals Python argument tuples into calls
on a native `segNet` engine (construction via `segNet::Create`, and the
`Process` / `Overlay` / `Mask` inference operations) and marshals the
results back.  We embed the three entry points `PySegNet_Init`,
`PySegNet_Process` and `PySegNet_Overlay` as pure Lean functions over an
abstract environment that stands for the native collaborators (engine
factory, inference operations, CUDA pointer extraction, `malloc`), and
record every native call the binding issues in a trace.
-/

namespace PySegNet

/-- An opaque handle to a constructed native segmentation engine
(`segNet*`).  `Option EngineHandle` models a nullable pointer. -/
abbrev EngineHandle := Nat

/-- A raw device-memory address extracted from a capsule
(`void* img`); `Option Ptr` models a nullable pointer. -/
abbrev Ptr := Nat

/-- The built-in network enumeration `segNet::NetworkType` from
`segNet.h` (header not part of this translation unit).  The binding
only ever compares the resolved value against the `SEGNET_CUSTOM`
sentinel, so the enumeration is kept abstract: the sentinel plus an
indexed family of built-in types. -/
inductive NetworkType where
  | SEGNET_CUSTOM : NetworkType
  | builtin : Nat → NetworkType
deriving DecidableEq

/-- A Python object as far as the binding inspects it: a string
(parsed with format `s`), a list (checked with `PyList_Check`, read
with `PyList_Size` / `PyList_GetItem`), or anything else. -/
inductive PyVal where
  | str : String → PyVal
  | list : List PyVal → PyVal
  | other : PyVal

/-- `PyList_Check(v)`. -/
def pyListCheck : PyVal → Bool
  | .list _ => true
  | _ => false

/-- `PyList_Size(v)` (0 for a non-list; the binding only reads it
after `PyList_Check`). -/
def pyListSize : PyVal → Nat
  | .list xs => xs.length
  | _ => 0

/-- The abstract error kinds of the binding, per the error taxonomy of
the spec (§7): `InvalidArgument` covers malformed parameters,
non-positive dimensions, an unresolved network name and an invalid
buffer handle; `InvalidState` an operation on an uninitialized
wrapper; `ConstructionError` a null handle from the engine factory or
an allocation failure while building the argument vector;
`OperationError` a native inference call that returned failure.
(In the C source all of these are raised as Python exceptions —
`PyExc_Exception`, and `PyExc_MemoryError` for the `malloc` failure —
distinguished by their message strings, which we carry verbatim.) -/
inductive PyErrKind where
  | InvalidArgument : PyErrKind
  | InvalidState : PyErrKind
  | ConstructionError : PyErrKind
  | OperationError : PyErrKind
deriving DecidableEq

/-- An error raised to the caller: the abstract kind together with the
exact message string passed to `PyErr_SetString` in the source
(without the `LOG_PY_INFERENCE` prefix macro). -/
structure PyErr where
  kind : PyErrKind
  msg : String
deriving DecidableEq

/-- One call into a native collaborator, recorded in order.  The
constructors cover the engine factory (`segNet::Create` from
`(argc, argv)` and from a `NetworkType`), symbolic-name resolution
(`segNet::NetworkTypeFromStr`), and the three inference operations. -/
inductive NativeCall where
  | CreateArgv : List String → NativeCall
  | CreateType : NetworkType → NativeCall
  | NetworkTypeFromStr : String → NativeCall
  | Process : EngineHandle → Ptr → Int → Int → NativeCall
  | Overlay : EngineHandle → Ptr → Int → Int → NativeCall
  | Mask : EngineHandle → Ptr → Int → Int → NativeCall
deriving DecidableEq

/-- Whether a recorded call is one of the three inference operations
(`Process`, `Overlay`, `Mask`) of the native engine. -/
def NativeCall.isEngineOp : NativeCall → Bool
  | .Process _ _ _ _ => true
  | .Overlay _ _ _ _ => true
  | .Mask _ _ _ _ => true
  | _ => false

/-- Whether a recorded call is a native `Overlay` operation. -/
def NativeCall.isOverlayOp : NativeCall → Bool
  | .Overlay _ _ _ _ => true
  | _ => false

/-- Whether a recorded call is a native `Mask` operation. -/
def NativeCall.isMaskOp : NativeCall → Bool
  | .Mask _ _ _ _ => true
  | _ => false

/-- Whether a recorded call belongs to the symbolic-name resolution
path of construction: resolving the name with
`segNet::NetworkTypeFromStr` or constructing from the resolved
`NetworkType`. -/
def NativeCall.isSymbolicPath : NativeCall → Bool
  | .NetworkTypeFromStr _ => true
  | .CreateType _ => true
  | _ => false

/-- Whether a recorded call is the raw-argument factory
`segNet::Create(argc, argv)`. -/
def NativeCall.isCreateArgv : NativeCall → Bool
  | .CreateArgv _ => true
  | _ => false

/-- The native collaborators consumed by the binding, kept abstract:
the engine factory, symbolic-name resolution, the three inference
operations, CUDA pointer extraction, and whether a `malloc` of an
`n`-slot pointer array succeeds. -/
structure SegNetEnv where
  NetworkTypeFromStr : String → NetworkType
  CreateType : NetworkType → Option EngineHandle
  CreateArgv : List String → Option EngineHandle
  Process : EngineHandle → Ptr → Int → Int → Bool
  Overlay : EngineHandle → Ptr → Int → Int → Bool
  Mask : EngineHandle → Ptr → Int → Int → Bool
  PyCUDA_GetPointer : PyVal → Option Ptr
  mallocOk : Nat → Bool

/-- The wrapper object `PySegNet_Object`: its own `segNet* net` field
plus the `net` field of the embedded `PyTensorNet_Object base` shared
with the parent abstraction.  `none` models a null pointer; a freshly
allocated object is zero-initialized, so both fields start `none`. -/
structure PySegNet_Object where
  base_net : Option EngineHandle
  net : Option EngineHandle
deriving DecidableEq

/-- Result of `PySegNet_Init`: the C return value (`0` on success,
`-1` with an exception set, modelled as `Except`), the wrapper state
after the call, and the trace of native calls issued. -/
structure InitResult where
  ret : Except PyErr Unit
  self : PySegNet_Object
  calls : List NativeCall

/-- Result of `PySegNet_Process` / `PySegNet_Overlay`: the returned
Python tuple as a list of integers (`NULL` with an exception set is
`Except.error`), and the trace of native calls issued. -/
structure OpResult where
  ret : Except PyErr (List Int)
  calls : List NativeCall

/-- The common tail of `PySegNet_Init` after either construction
branch has produced `self->net`: on a null handle, raise
"segNet failed to load network" and return `-1` (the null is still
assigned to `self->net`; `self->base.net` is untouched); on success,
store the handle in both `self->net` and `self->base.net` and return
`0`. -/
def finishInit (self : PySegNet_Object) (net : Option EngineHandle)
    (calls : List NativeCall) : InitResult :=
  match net with
  | none =>
      ⟨.error ⟨.ConstructionError, "segNet failed to load network"⟩,
        { self with net := none }, calls⟩
  | some h =>
      ⟨.ok (), { base_net := some h, net := some h }, calls⟩

/-- The per-item loop of the argv branch: each list element is parsed
with `PyArg_Parse(item, "s")`, which succeeds exactly on string
objects; the first non-string aborts the loop with an error. -/
def parseArgvItems : List PyVal → Option (List String)
  | [] => some []
  | .str s :: rest => (parseArgvItems rest).map (fun tl => s :: tl)
  | _ :: _ => none

/-- The argv branch of `PySegNet_Init` (entered when `argList` is a
list of size > 0): re-read `argc = PyList_Size(argList)`; the
`argc == 0` guard; `malloc` of the `char**` vector (failure raises
`PyExc_MemoryError`, classified `ConstructionError` by the spec's
taxonomy); the item-parsing loop; then `segNet::Create(argc, argv)`
followed by the common tail. -/
def argvBranch (env : SegNetEnv) (self : PySegNet_Object)
    (items : List PyVal) : InitResult :=
  if items.length = 0 then
    ⟨.error ⟨.InvalidArgument, "segNet.__init()__ argv list was empty"⟩,
      self, []⟩
  else if ¬ env.mallocOk items.length then
    ⟨.error ⟨.ConstructionError,
        "segNet.__init()__ failed to malloc memory for argv list"⟩,
      self, []⟩
  else
    match parseArgvItems items with
    | none =>
        ⟨.error ⟨.InvalidArgument,
            "segNet.__init()__ failed to parse argv list"⟩,
          self, []⟩
    | some argv =>
        finishInit self (env.CreateArgv argv) [.CreateArgv argv]

/-- The symbolic-name branch of `PySegNet_Init`: resolve the name with
`segNet::NetworkTypeFromStr`; the `SEGNET_CUSTOM` sentinel raises
"detectNet invalid built-in network was requested" (message copied
from detectNet in the source); otherwise construct with
`segNet::Create(networkType)` and run the common tail. -/
def builtinBranch (env : SegNetEnv) (self : PySegNet_Object)
    (network : String) : InitResult :=
  if env.NetworkTypeFromStr network = NetworkType.SEGNET_CUSTOM then
    ⟨.error ⟨.InvalidArgument,
        "detectNet invalid built-in network was requested"⟩,
      self, [.NetworkTypeFromStr network]⟩
  else
    finishInit self (env.CreateType (env.NetworkTypeFromStr network))
      [.NetworkTypeFromStr network,
        .CreateType (env.NetworkTypeFromStr network)]

/-- `PySegNet_Init`: arguments parsed with format `"|sO"` (both
optional; `network` defaults to `"aerial-fpv"`, `argList` to `NULL`).
The argv branch is taken iff
`argList != NULL && PyList_Check(argList) && PyList_Size(argList) > 0`;
otherwise the built-in-network branch runs. -/
def PySegNet_Init (env : SegNetEnv) (self : PySegNet_Object)
    (network : Option String) (argList : Option PyVal) : InitResult :=
  match argList with
  | some (.list items) =>
      if 0 < items.length then
        argvBranch env self items
      else
        builtinBranch env self (network.getD "aerial-fpv")
  | _ => builtinBranch env self (network.getD "aerial-fpv")

/-- The raw arguments of a `Process` call, after Python-level keyword
matching but before C-level conversion; `none` means the argument was
not supplied.  Format string: `"Oii|"` (all three required). -/
structure ProcessArgs where
  image : Option PyVal
  width : Option Int
  height : Option Int

/-- The raw arguments of an `Overlay` call; `none` means the argument
was not supplied.  Format string in the source: `"Oiip|"` — the `|`
comes after the `p` converter, so all four arguments, `mask`
included, are required (the C local `int mask = 0` default is dead).
The `p` converter yields a C int 0/1, modelled as `Bool`. -/
structure OverlayArgs where
  image : Option PyVal
  width : Option Int
  height : Option Int
  mask : Option Bool

/-- The InvalidState error of both operation entry points
(`!self || !self->net`). -/
def invalidInstanceErr : PyErr :=
  ⟨.InvalidState, "segNet invalid object instance"⟩

/-- `PySegNet_Process`: null-instance check first; then
`PyArg_ParseTupleAndKeywords(args, kwds, "Oii|", ...)`; then the
dimension check; then pointer extraction; then the native
`Process(img, width, height)`.  On native success the binding returns
`PyTuple_Pack(1, PYLONG_FROM_LONG(2.0))` — the constant 2 (the C
double literal 2.0 converted to long), not a computed result. -/
def PySegNet_Process (env : SegNetEnv) (self : Option PySegNet_Object)
    (args : ProcessArgs) : OpResult :=
  match self with
  | none => ⟨.error invalidInstanceErr, []⟩
  | some s =>
    match s.net with
    | none => ⟨.error invalidInstanceErr, []⟩
    | some h =>
      match args.image, args.width, args.height with
      | some img, some w, some ht =>
          if w ≤ 0 ∨ ht ≤ 0 then
            ⟨.error ⟨.InvalidArgument,
                "segNet.Process() image dimensions are invalid"⟩, []⟩
          else
            match env.PyCUDA_GetPointer img with
            | none =>
                ⟨.error ⟨.InvalidArgument,
                    "segNet.Process() failed to get image pointer from PyCapsule container"⟩,
                  []⟩
            | some ptr =>
                if env.Process h ptr w ht then
                  ⟨.ok [2], [.Process h ptr w ht]⟩
                else
                  ⟨.error ⟨.OperationError,
                      "segNet.Process() encountered an error classifying the image"⟩,
                    [.Process h ptr w ht]⟩
      | _, _, _ =>
          ⟨.error ⟨.InvalidArgument,
              "segNet.Process() failed to parse args tuple"⟩, []⟩

/-- `PySegNet_Overlay`: null-instance check first; then
`PyArg_ParseTupleAndKeywords(args, kwds, "Oiip|", ...)` (all four
arguments required, including `mask`; the parse-failure message reuses
the `segNet.Process()` string from the source); then the dimension
check; then pointer extraction; then
`mask > 0 ? Mask(...) : Overlay(...)`.  The success tuple is the same
constant-2 placeholder as `Process`. -/
def PySegNet_Overlay (env : SegNetEnv) (self : Option PySegNet_Object)
    (args : OverlayArgs) : OpResult :=
  match self with
  | none => ⟨.error invalidInstanceErr, []⟩
  | some s =>
    match s.net with
    | none => ⟨.error invalidInstanceErr, []⟩
    | some h =>
      match args.image, args.width, args.height, args.mask with
      | some img, some w, some ht, some m =>
          if w ≤ 0 ∨ ht ≤ 0 then
            ⟨.error ⟨.InvalidArgument,
                "segNet.Process() image dimensions are invalid"⟩, []⟩
          else
            match env.PyCUDA_GetPointer img with
            | none =>
                ⟨.error ⟨.InvalidArgument,
                    "segNet.Process() failed to get image pointer from PyCapsule container"⟩,
                  []⟩
            | some ptr =>
                if (if m then env.Mask h ptr w ht else env.Overlay h ptr w ht) then
                  ⟨.ok [2],
                    [if m then .Mask h ptr w ht else .Overlay h ptr w ht]⟩
                else
                  ⟨.error ⟨.OperationError,
                      "segNet.Overlay() encountered an error classifying the image"⟩,
                    [if m then .Mask h ptr w ht else .Overlay h ptr w ht]⟩
      | _, _, _, _ =>
          ⟨.error ⟨.InvalidArgument,
              "segNet.Process() failed to parse args tuple"⟩, []⟩

/-- A freshly allocated wrapper: `tp_alloc` zero-initializes, so both
handle fields are null. -/
def freshObject : PySegNet_Object := ⟨none, none⟩

/-- Whether an Init result raised the "argv list was empty" error of
the `argc == 0` guard inside the argv branch. -/
def InitResult.raisedEmptyArgv (r : InitResult) : Bool :=
  match r.ret with
  | .error e => e.msg == "segNet.__init()__ argv list was empty"
  | .ok _ => false

/-- The kind of the error an operation call raised, if it raised one. -/
def OpResult.errKind (r : OpResult) : Option PyErrKind :=
  match r.ret with
  | .error e => some e.kind
  | .ok _ => none

/-- A concrete native environment used to evaluate the model on
closed inputs: the name "custom" resolves to the sentinel and every
other name to a built-in type; both factory entry points return
handle 7; the three inference operations succeed; pointer extraction
yields address 1; `malloc` succeeds. -/
def okEnv : SegNetEnv where
  NetworkTypeFromStr := fun s =>
    if s = "custom" then .SEGNET_CUSTOM else .builtin 0
  CreateType := fun _ => some 7
  CreateArgv := fun _ => some 7
  Process := fun _ _ _ _ => true
  Overlay := fun _ _ _ _ => true
  Mask := fun _ _ _ _ => true
  PyCUDA_GetPointer := fun _ => some 1
  mallocOk := fun _ => true

/-! Helper lemmas shared by the claim theorems. -/

lemma finishInit_calls (self : PySegNet_Object) (net : Option EngineHandle)
    (calls : List NativeCall) : (finishInit self net calls).calls = calls := by
  cases net <;> rfl

lemma finishInit_ok_stores (self : PySegNet_Object) (net : Option EngineHandle)
    (calls : List NativeCall)
    (hok : (finishInit self net calls).ret = .ok ()) :
    (finishInit self net calls).self.net
        = (finishInit self net calls).self.base_net ∧
      ((finishInit self net calls).self.net).isSome = true := by
  cases net with
  | none => simp [finishInit] at hok
  | some h => exact ⟨rfl, rfl⟩

lemma init_to_argvBranch (env : SegNetEnv) (self : PySegNet_Object)
    (network : Option String) (items : List PyVal) (hne : 0 < items.length) :
    PySegNet_Init env self network (some (.list items))
      = argvBranch env self items := by
  simp [PySegNet_Init, hne]

lemma init_to_builtin (env : SegNetEnv) (self : PySegNet_Object)
    (network : Option String) (argList : Option PyVal)
    (hno : ∀ items, argList = some (.list items) → items.length = 0) :
    PySegNet_Init env self network argList
      = builtinBranch env self (network.getD "aerial-fpv") := by
  cases argList with
  | none => rfl
  | some l =>
      cases l with
      | str s => rfl
      | other => rfl
      | list items =>
          have h0 := hno items rfl
          simp [PySegNet_Init, h0]

/-- Claim C1: when both a symbolic network name and a non-empty argument
list are supplied, the argument list wins: no symbolic-resolution
call (`NetworkTypeFromStr` or `Create(networkType)`) is ever issued,
and as soon as the argv vector is built (the `malloc` succeeds and
every list item parses as a string) the engine is constructed by the
raw-argument factory `Create(argc, argv)`. -/
theorem init_argv_precedence (env : SegNetEnv) (self : PySegNet_Object)
    (network : Option String) (items : List PyVal)
    (hne : 0 < items.length) :
    (∀ c ∈ (PySegNet_Init env self network (some (.list items))).calls,
        c.isSymbolicPath = false) ∧
    (∀ argv, env.mallocOk items.length = true →
        parseArgvItems items = some argv →
        (PySegNet_Init env self network (some (.list items))).calls
          = [NativeCall.CreateArgv argv]) := by
  rw [init_to_argvBranch env self network items hne]
  have hargc : ¬ items.length = 0 := Nat.pos_iff_ne_zero.mp hne
  unfold argvBranch
  rw [if_neg hargc]
  by_cases hm : env.mallocOk items.length
  · rw [if_neg (by simp [hm])]
    cases hp : parseArgvItems items with
    | none =>
        exact ⟨by intro c hc; simp at hc,
          fun argv _ hargv => Option.noConfusion hargv⟩
    | some argv =>
        refine ⟨?_, ?_⟩
        · intro c hc
          rw [finishInit_calls] at hc
          simp at hc
          simp [hc, NativeCall.isSymbolicPath]
        · intro argv2 _ hargv2
          injection hargv2 with he
          subst he
          exact finishInit_calls ..
  · rw [if_pos (by simp [hm])]
    exact ⟨by intro c hc; simp at hc, by intro argv hm2 _; exact absurd hm2 hm⟩

/-- Claim C1 witness: a concrete construction call supplying both a network
name and a one-element argv list constructs through the raw-argument
factory alone. -/
theorem init_argv_precedence_witness :
    (PySegNet_Init okEnv freshObject (some "fcn-alexnet")
        (some (.list [.str "--model=custom.onnx"]))).calls
      = [NativeCall.CreateArgv ["--model=custom.onnx"]] :=
  (init_argv_precedence okEnv freshObject (some "fcn-alexnet")
      [.str "--model=custom.onnx"] (by decide)).2
    ["--model=custom.onnx"] rfl rfl

/-- Claim C2: every operation call on a wrapper whose engine handle is null
(a null object, or a null `net` field) fails with the InvalidState
error and issues no native call at all; the result is the same for
every argument record — parseable or not — so the validation precedes
argument parsing and dispatch. -/
theorem ops_null_engine_invalid_state (env : SegNetEnv)
    (self : Option PySegNet_Object) (pargs : ProcessArgs)
    (oargs : OverlayArgs)
    (hnull : ∀ s, self = some s → s.net = none) :
    PySegNet_Process env self pargs = ⟨.error invalidInstanceErr, []⟩ ∧
    PySegNet_Overlay env self oargs = ⟨.error invalidInstanceErr, []⟩ := by
  cases self with
  | none => exact ⟨rfl, rfl⟩
  | some s =>
      have hnet := hnull s rfl
      exact ⟨by simp [PySegNet_Process, hnet],
        by simp [PySegNet_Overlay, hnet]⟩

/-- Claim C2 witness: a process call on a wrapper with a null engine handle
fails with InvalidState and no native call. -/
theorem ops_null_engine_invalid_state_witness :
    PySegNet_Process okEnv (some ⟨some 7, none⟩) ⟨none, none, none⟩
      = ⟨.error invalidInstanceErr, []⟩ :=
  (ops_null_engine_invalid_state okEnv (some ⟨some 7, none⟩)
      ⟨none, none, none⟩ ⟨none, none, none, none⟩
      (fun s hs => by cases hs; rfl)).1

/-- Claim C3: on a wrapper with a live engine handle, a process or overlay
call whose width or height is ≤ 0 fails with an InvalidArgument-kind
error and issues no native engine operation.  (For overlay the `mask`
argument is arbitrary: when it is omitted the call already fails
argument parsing — also an InvalidArgument-kind error — still without
any native call.) -/
theorem ops_nonpositive_dims_invalid_argument (env : SegNetEnv)
    (s : PySegNet_Object) (h : EngineHandle) (hs : s.net = some h)
    (img : PyVal) (w ht : Int) (m : Option Bool)
    (hdim : w ≤ 0 ∨ ht ≤ 0) :
    (PySegNet_Process env (some s) ⟨some img, some w, some ht⟩
        = ⟨.error ⟨.InvalidArgument,
            "segNet.Process() image dimensions are invalid"⟩, []⟩) ∧
    ((PySegNet_Overlay env (some s)
          ⟨some img, some w, some ht, m⟩).errKind
        = some .InvalidArgument ∧
      (PySegNet_Overlay env (some s)
          ⟨some img, some w, some ht, m⟩).calls = []) := by
  refine ⟨?_, ?_⟩
  · simp [PySegNet_Process, hs, if_pos hdim]
  · cases m with
    | none =>
        exact ⟨by simp [PySegNet_Overlay, hs, OpResult.errKind],
          by simp [PySegNet_Overlay, hs]⟩
    | some b =>
        exact ⟨by simp [PySegNet_Overlay, hs, if_pos hdim, OpResult.errKind],
          by simp [PySegNet_Overlay, hs, if_pos hdim]⟩

/-- Claim C3 witness: `overlay(image, width=0, height=512, mask=0)` on a
live wrapper fails with an InvalidArgument-kind error and no native
call. -/
theorem ops_nonpositive_dims_invalid_argument_witness :
    (PySegNet_Overlay okEnv (some ⟨some 7, some 7⟩)
        ⟨some .other, some 0, some 512, some false⟩).errKind
      = some .InvalidArgument :=
  ((ops_nonpositive_dims_invalid_argument okEnv ⟨some 7, some 7⟩ 7 rfl
      .other 0 512 (some false) (Or.inl (by decide))).2).1

/-- Claim C4: on a live wrapper with fully valid arguments, a process call
returns the one-element tuple `(2,)` — the placeholder constant
`PYLONG_FROM_LONG(2.0)`, independent of the native environment and
hence not computed from the inference output — when the native
`Process` reports true, and fails with the OperationError-kind error
when it reports false. -/
theorem process_placeholder_or_operation_error (env : SegNetEnv)
    (s : PySegNet_Object) (h : EngineHandle) (hs : s.net = some h)
    (img : PyVal) (w ht : Int) (hw : 0 < w) (hh : 0 < ht)
    (ptr : Ptr) (hp : env.PyCUDA_GetPointer img = some ptr) :
    (env.Process h ptr w ht = true →
        PySegNet_Process env (some s) ⟨some img, some w, some ht⟩
          = ⟨.ok [2], [NativeCall.Process h ptr w ht]⟩) ∧
    (env.Process h ptr w ht = false →
        PySegNet_Process env (some s) ⟨some img, some w, some ht⟩
          = ⟨.error ⟨.OperationError,
              "segNet.Process() encountered an error classifying the image"⟩,
            [NativeCall.Process h ptr w ht]⟩) := by
  have hdim : ¬ (w ≤ 0 ∨ ht ≤ 0) := by omega
  constructor <;> intro hsuc <;> simp [PySegNet_Process, hs, hp, hdim, hsuc]

/-- Claim C4 witness: `process(image, width=512, height=512)` on a live
wrapper in an environment whose native call succeeds returns the
placeholder tuple `(2,)`. -/
theorem process_placeholder_or_operation_error_witness :
    PySegNet_Process okEnv (some ⟨some 7, some 7⟩)
        ⟨some .other, some 512, some 512⟩
      = ⟨.ok [2], [NativeCall.Process 7 1 512 512]⟩ :=
  (process_placeholder_or_operation_error okEnv ⟨some 7, some 7⟩ 7 rfl
      .other 512 512 (by decide) (by decide) 1 rfl).1 rfl

/-- Claim C5: a construction call with a symbolic network name and no
non-empty argument list, whose name resolves to the `SEGNET_CUSTOM`
sentinel, fails with the InvalidArgument error of the sentinel check;
the full result shows that the only native call issued is the name
resolution itself (in particular the raw-argument factory is never
called) and the wrapper object is returned unchanged, so no engine
handle is stored. -/
theorem init_custom_sentinel_fails (env : SegNetEnv)
    (self : PySegNet_Object) (network : String) (argList : Option PyVal)
    (hargs : ∀ items, argList = some (.list items) → items.length = 0)
    (hcustom : env.NetworkTypeFromStr network = NetworkType.SEGNET_CUSTOM) :
    PySegNet_Init env self (some network) argList
      = ⟨.error ⟨.InvalidArgument,
            "detectNet invalid built-in network was requested"⟩,
          self, [NativeCall.NetworkTypeFromStr network]⟩ := by
  have hb : builtinBranch env self network
      = ⟨.error ⟨.InvalidArgument,
            "detectNet invalid built-in network was requested"⟩,
          self, [NativeCall.NetworkTypeFromStr network]⟩ := by
    simp [builtinBranch, hcustom]
  cases argList with
  | none => simpa [PySegNet_Init] using hb
  | some l =>
      cases l with
      | str s => simpa [PySegNet_Init] using hb
      | other => simpa [PySegNet_Init] using hb
      | list items =>
          have h0 := hargs items rfl
          simpa [PySegNet_Init, h0] using hb

/-- Claim C5 witness: constructing with the name "custom" (which the
concrete environment resolves to the sentinel) and no argv list fails
with InvalidArgument after the resolution call alone. -/
theorem init_custom_sentinel_fails_witness :
    PySegNet_Init okEnv freshObject (some "custom") none
      = ⟨.error ⟨.InvalidArgument,
            "detectNet invalid built-in network was requested"⟩,
          freshObject, [NativeCall.NetworkTypeFromStr "custom"]⟩ :=
  init_custom_sentinel_fails okEnv freshObject "custom" none
    (fun items h => Option.noConfusion h) (by decide)

/-- Claim C6: an overlay call on a live wrapper with fully valid
arguments issues exactly one native inference call: `Mask` when the
mask flag is set, `Overlay` otherwise — the recorded trace is the
corresponding one-element list. -/
theorem overlay_mask_dispatch (env : SegNetEnv) (s : PySegNet_Object)
    (h : EngineHandle) (hs : s.net = some h) (img : PyVal)
    (w ht : Int) (m : Bool) (hw : 0 < w) (hh : 0 < ht)
    (ptr : Ptr) (hp : env.PyCUDA_GetPointer img = some ptr) :
    (PySegNet_Overlay env (some s)
        ⟨some img, some w, some ht, some m⟩).calls
      = [if m then NativeCall.Mask h ptr w ht
          else NativeCall.Overlay h ptr w ht] := by
  have hdim : ¬ (w ≤ 0 ∨ ht ≤ 0) := by omega
  cases hnat : (if m then env.Mask h ptr w ht else env.Overlay h ptr w ht) <;>
    simp [PySegNet_Overlay, hs, hp, hdim, hnat]

/-- Claim C6 witness: `overlay(image, width=512, height=512, mask=1)`
on a live wrapper dispatches the single native `Mask` call. -/
theorem overlay_mask_dispatch_witness :
    (PySegNet_Overlay okEnv (some ⟨some 7, some 7⟩)
        ⟨some .other, some 512, some 512, some true⟩).calls
      = [NativeCall.Mask 7 1 512 512] :=
  overlay_mask_dispatch okEnv ⟨some 7, some 7⟩ 7 rfl .other 512 512 true
    (by decide) (by decide) 1 rfl

/-- Claim C7 (refuting the optional-mask contract): the format string
of the overlay entry point is `"Oiip|"` — the `|` marker comes after
the `p` converter — so the `mask` argument is required: a call that
supplies image, width and height but omits `mask` fails argument
parsing instead of defaulting to overlay-rendering mode, even though
the C local carries the dead initializer `int mask = 0`. -/
theorem overlay_omitted_mask_fails_parsing :
    PySegNet_Overlay okEnv (some ⟨some 7, some 7⟩)
        ⟨some .other, some 512, some 512, none⟩
      = ⟨.error ⟨.InvalidArgument,
            "segNet.Process() failed to parse args tuple"⟩, []⟩ := rfl

lemma finishInit_error_fresh (net : Option EngineHandle)
    (calls : List NativeCall) (e : PyErr)
    (he : (finishInit freshObject net calls).ret = .error e) :
    (finishInit freshObject net calls).self = freshObject := by
  cases net with
  | none => rfl
  | some h => simp [finishInit] at he

lemma builtinBranch_error_fresh (env : SegNetEnv) (network : String)
    (e : PyErr)
    (he : (builtinBranch env freshObject network).ret = .error e) :
    (builtinBranch env freshObject network).self = freshObject := by
  unfold builtinBranch at he ⊢
  by_cases hc : env.NetworkTypeFromStr network = NetworkType.SEGNET_CUSTOM
  · simp [if_pos hc]
  · rw [if_neg hc] at he ⊢
    exact finishInit_error_fresh _ _ _ he

lemma argvBranch_error_fresh (env : SegNetEnv) (items : List PyVal)
    (e : PyErr)
    (he : (argvBranch env freshObject items).ret = .error e) :
    (argvBranch env freshObject items).self = freshObject := by
  unfold argvBranch at he ⊢
  by_cases h0 : items.length = 0
  · simp [if_pos h0]
  · rw [if_neg h0] at he ⊢
    by_cases hm : env.mallocOk items.length
    · rw [if_neg (by simp [hm])] at he ⊢
      cases hp : parseArgvItems items with
      | none => rfl
      | some argv =>
          rw [hp] at he
          exact finishInit_error_fresh _ _ _ he
    · rw [if_pos (by simp [hm])]

/-- Claim C8: construction failure on a fresh wrapper — the `malloc`
of the argv vector fails, or the engine factory (raw-argument or
built-in) returns a null handle — raises a ConstructionError-kind
error, and every ConstructionError leaves the wrapper exactly as
allocated: both handle fields null, so no partial engine handle is
retained and the object stays in the invalid state that makes every
later operation fail. -/
theorem init_failure_leaves_wrapper_clean (env : SegNetEnv)
    (network : Option String) (argList : Option PyVal) :
    (∀ items, argList = some (.list items) → 0 < items.length →
        env.mallocOk items.length = false →
        PySegNet_Init env freshObject network argList
          = ⟨.error ⟨.ConstructionError,
                "segNet.__init()__ failed to malloc memory for argv list"⟩,
              freshObject, []⟩) ∧
    (∀ items argv, argList = some (.list items) → 0 < items.length →
        env.mallocOk items.length = true →
        parseArgvItems items = some argv →
        env.CreateArgv argv = none →
        PySegNet_Init env freshObject network argList
          = ⟨.error ⟨.ConstructionError, "segNet failed to load network"⟩,
              freshObject, [NativeCall.CreateArgv argv]⟩) ∧
    ((∀ items, argList = some (.list items) → items.length = 0) →
        env.NetworkTypeFromStr (network.getD "aerial-fpv")
            ≠ NetworkType.SEGNET_CUSTOM →
        env.CreateType (env.NetworkTypeFromStr (network.getD "aerial-fpv"))
            = none →
        (PySegNet_Init env freshObject network argList).ret
          = .error ⟨.ConstructionError, "segNet failed to load network"⟩) ∧
    (∀ e, (PySegNet_Init env freshObject network argList).ret
          = .error ⟨.ConstructionError, e⟩ →
        (PySegNet_Init env freshObject network argList).self.net = none ∧
        (PySegNet_Init env freshObject network argList).self.base_net
          = none) := by
  refine ⟨?_, ?_, ?_, ?_⟩
  · intro items hl hne hm
    subst hl
    rw [init_to_argvBranch env freshObject network items hne]
    unfold argvBranch
    rw [if_neg (Nat.pos_iff_ne_zero.mp hne), if_pos (by simp [hm])]
  · intro items argv hl hne hm hp hcr
    subst hl
    rw [init_to_argvBranch env freshObject network items hne]
    unfold argvBranch
    rw [if_neg (Nat.pos_iff_ne_zero.mp hne), if_neg (by simp [hm]), hp]
    simp [finishInit, hcr, freshObject]
  · intro hempty hc hcr
    have hb : (builtinBranch env freshObject (network.getD "aerial-fpv")).ret
        = .error ⟨.ConstructionError, "segNet failed to load network"⟩ := by
      unfold builtinBranch
      rw [if_neg hc, hcr]
      rfl
    cases argList with
    | none => simpa [PySegNet_Init] using hb
    | some l =>
        cases l with
        | str s => simpa [PySegNet_Init] using hb
        | other => simpa [PySegNet_Init] using hb
        | list items =>
            have h0 := hempty items rfl
            simpa [PySegNet_Init, h0] using hb
  · intro e he
    have hself : (PySegNet_Init env freshObject network argList).self
        = freshObject := by
      by_cases hl : ∃ items, argList = some (.list items) ∧ 0 < items.length
      · obtain ⟨items, hl2, hlen⟩ := hl
        subst hl2
        rw [init_to_argvBranch env freshObject network items hlen] at he ⊢
        exact argvBranch_error_fresh _ _ _ he
      · have hno : ∀ items, argList = some (.list items) →
            items.length = 0 := by
          intro items hitems
          by_contra hne
          exact hl ⟨items, hitems, Nat.pos_of_ne_zero hne⟩
        rw [init_to_builtin env freshObject network argList hno] at he ⊢
        exact builtinBranch_error_fresh _ _ _ he
    rw [hself]
    exact ⟨rfl, rfl⟩

/-- Claim C8 witness: with a raw-argument factory that returns a null
handle, construction from a one-element argv list fails with the
ConstructionError and returns the wrapper with both handle fields
still null. -/
theorem init_failure_leaves_wrapper_clean_witness :
    PySegNet_Init
        { okEnv with CreateArgv := fun _ => none } freshObject
        (some "fcn-alexnet") (some (.list [.str "--model=m.onnx"]))
      = ⟨.error ⟨.ConstructionError, "segNet failed to load network"⟩,
          freshObject, [NativeCall.CreateArgv ["--model=m.onnx"]]⟩ :=
  ((init_failure_leaves_wrapper_clean
        { okEnv with CreateArgv := fun _ => none }
        (some "fcn-alexnet") (some (.list [.str "--model=m.onnx"]))).2.1)
    [.str "--model=m.onnx"] ["--model=m.onnx"] rfl (by decide) rfl rfl rfl

lemma builtinBranch_ok_stores (env : SegNetEnv) (self : PySegNet_Object)
    (network : String)
    (hok : (builtinBranch env self network).ret = .ok ()) :
    (builtinBranch env self network).self.net
        = (builtinBranch env self network).self.base_net ∧
      ((builtinBranch env self network).self.net).isSome = true := by
  unfold builtinBranch at hok ⊢
  by_cases hc : env.NetworkTypeFromStr network = NetworkType.SEGNET_CUSTOM
  · rw [if_pos hc] at hok
    simp at hok
  · rw [if_neg hc] at hok ⊢
    exact finishInit_ok_stores _ _ _ hok

lemma argvBranch_ok_stores (env : SegNetEnv) (self : PySegNet_Object)
    (items : List PyVal)
    (hok : (argvBranch env self items).ret = .ok ()) :
    (argvBranch env self items).self.net
        = (argvBranch env self items).self.base_net ∧
      ((argvBranch env self items).self.net).isSome = true := by
  unfold argvBranch at hok ⊢
  by_cases h0 : items.length = 0
  · rw [if_pos h0] at hok
    simp at hok
  · rw [if_neg h0] at hok ⊢
    by_cases hm : env.mallocOk items.length
    · rw [if_neg (by simp [hm])] at hok ⊢
      cases hp : parseArgvItems items with
      | none =>
          rw [hp] at hok
          simp at hok
      | some argv =>
          rw [hp] at hok
          exact finishInit_ok_stores _ _ _ hok
    · rw [if_pos (by simp [hm])] at hok
      simp at hok

/-- Claim C9: whenever construction succeeds, the engine handle is
stored in both the wrapper's own `net` field and the shared
`base.net` field of the parent abstraction: after a successful Init
the two fields are equal and non-null. -/
theorem init_success_stores_handle_in_both_fields (env : SegNetEnv)
    (self : PySegNet_Object) (network : Option String)
    (argList : Option PyVal)
    (hok : (PySegNet_Init env self network argList).ret = .ok ()) :
    (PySegNet_Init env self network argList).self.net
        = (PySegNet_Init env self network argList).self.base_net ∧
      ((PySegNet_Init env self network argList).self.net).isSome
        = true := by
  by_cases hl : ∃ items, argList = some (.list items) ∧ 0 < items.length
  · obtain ⟨items, hl2, hlen⟩ := hl
    subst hl2
    rw [init_to_argvBranch env self network items hlen] at hok ⊢
    exact argvBranch_ok_stores _ _ _ hok
  · have hno : ∀ items, argList = some (.list items) →
        items.length = 0 := by
      intro items hitems
      by_contra hne
      exact hl ⟨items, hitems, Nat.pos_of_ne_zero hne⟩
    rw [init_to_builtin env self network argList hno] at hok ⊢
    exact builtinBranch_ok_stores _ _ _ hok

/-- Claim C9 witness: a successful default construction leaves equal,
non-null handle fields. -/
theorem init_success_stores_handle_in_both_fields_witness :
    (PySegNet_Init okEnv freshObject none none).self.net
        = (PySegNet_Init okEnv freshObject none none).self.base_net ∧
      ((PySegNet_Init okEnv freshObject none none).self.net).isSome
        = true :=
  init_success_stores_handle_in_both_fields okEnv freshObject none none
    rfl

lemma finishInit_not_empty_argv (self : PySegNet_Object)
    (net : Option EngineHandle) (calls : List NativeCall) :
    (finishInit self net calls).raisedEmptyArgv = false := by
  cases net <;> rfl

lemma builtinBranch_not_empty_argv (env : SegNetEnv)
    (self : PySegNet_Object) (network : String) :
    (builtinBranch env self network).raisedEmptyArgv = false := by
  unfold builtinBranch
  by_cases hc : env.NetworkTypeFromStr network = NetworkType.SEGNET_CUSTOM
  · rw [if_pos hc]
    rfl
  · rw [if_neg hc]
    exact finishInit_not_empty_argv _ _ _

/-- Claim C10: the `argc == 0` error branch inside the argv path is
dead code: no construction call, for any environment, wrapper,
network name or argument object, ever produces the
"argv list was empty" error, because the argv path is entered only
when the list size is strictly positive and `argc` re-reads that same
size. -/
theorem init_empty_argv_error_unreachable (env : SegNetEnv)
    (self : PySegNet_Object) (network : Option String)
    (argList : Option PyVal) :
    (PySegNet_Init env self network argList).raisedEmptyArgv = false := by
  by_cases hl : ∃ items, argList = some (.list items) ∧ 0 < items.length
  · obtain ⟨items, hl2, hlen⟩ := hl
    subst hl2
    rw [init_to_argvBranch env self network items hlen]
    unfold argvBranch
    rw [if_neg (Nat.pos_iff_ne_zero.mp hlen)]
    by_cases hm : env.mallocOk items.length
    · rw [if_neg (by simp [hm])]
      cases hp : parseArgvItems items with
      | none => rfl
      | some argv => exact finishInit_not_empty_argv _ _ _
    · rw [if_pos (by simp [hm])]
      rfl
  · have hno : ∀ items, argList = some (.list items) →
        items.length = 0 := by
      intro items hitems
      by_contra hne
      exact hl ⟨items, hitems, Nat.pos_of_ne_zero hne⟩
    rw [init_to_builtin env self network argList hno]
    exact builtinBranch_not_empty_argv _ _ _

end PySegNet
